import Mathlib

/-!
A shallow embedding of the decision logic of `src/app.py` (Mountain Altitude
Sickness Analyzer) and proofs about the claims of its specification.

Python dictionaries of contraindication flags are embedded as association
lists `List (String × Bool)`; a Python `d["k"]` subscript that can raise
`KeyError` is embedded as an `Option`-valued lookup, and functions performing
such subscripts return `Option` results (`none` = the call raises).
The float `ascent_rate` is embedded as `Rat`; all other numbers are `Int`.
-/

namespace Altitude

/-- Embedding of `diagnose_symptoms(symptoms, altitude, time_since_ascent)`
(src/app.py lines 279-310).  Sequential mutation of the Python locals
`diagnosis` and `severity` is embedded as shadowing `let` bindings; an update
of both locals under one `if` becomes one `if` per local with the same
condition. -/
def diagnose_symptoms (symptoms : List String) (altitude : Int)
    (time_since_ascent : Int) : List String × String :=
  let diagnosis : List String := []
  let severity : String := "None"
  -- Check for AMS (lines 285-296)
  let diagnosis :=
    if "Headache" ∈ symptoms then
      if 1 ≤ (symptoms.filter
          (fun s => s ∈ ["Nausea/Vomiting", "Fatigue", "Dizziness"])).length then
        if 6 ≤ symptoms.length ∨ "Severe headache" ∈ symptoms then
          diagnosis ++ ["Moderate-Severe AMS"]
        else
          diagnosis ++ ["Mild AMS"]
      else diagnosis
    else diagnosis
  let severity :=
    if "Headache" ∈ symptoms then
      if 1 ≤ (symptoms.filter
          (fun s => s ∈ ["Nausea/Vomiting", "Fatigue", "Dizziness"])).length then
        if 6 ≤ symptoms.length ∨ "Severe headache" ∈ symptoms then
          "Moderate-Severe"
        else
          "Mild"
      else severity
    else severity
  -- Check for HACE (lines 299-301)
  let diagnosis :=
    if "Ataxia" ∈ symptoms ∨ "Altered mental status" ∈ symptoms ∨
        "Confusion" ∈ symptoms then
      diagnosis ++ ["HIGH ALTITUDE CEREBRAL EDEMA (HACE) - EMERGENCY"]
    else diagnosis
  let severity :=
    if "Ataxia" ∈ symptoms ∨ "Altered mental status" ∈ symptoms ∨
        "Confusion" ∈ symptoms then
      "Severe - Emergency"
    else severity
  -- Check for HAPE (lines 304-308)
  let diagnosis :=
    if "Dyspnea at rest" ∈ symptoms ∨ "Severe dyspnea on exertion" ∈ symptoms then
      if 1 ≤ (symptoms.filter
          (fun s => s ∈ ["Cough", "Chest tightness", "Fatigue"])).length then
        diagnosis ++ ["HIGH ALTITUDE PULMONARY EDEMA (HAPE) - EMERGENCY"]
      else diagnosis
    else diagnosis
  let severity :=
    if "Dyspnea at rest" ∈ symptoms ∨ "Severe dyspnea on exertion" ∈ symptoms then
      if 1 ≤ (symptoms.filter
          (fun s => s ∈ ["Cough", "Chest tightness", "Fatigue"])).length then
        "Severe - Emergency"
      else severity
    else severity
  (diagnosis, severity)

/-- Embedding of the risk-score accumulation of `assess_ams_risk`
(src/app.py lines 74-115): the running Python local `risk_score`. -/
def ams_risk_score (history : String) (sleeping_elevation : Int)
    (ascent_rate : Rat) (age : Int) (medical_conditions : List String) : Int :=
  let risk_score : Int := 0
  -- History of altitude illness (lines 78-86)
  let risk_score :=
    if history = "HAPE or HACE" then risk_score + 3
    else if history = "Moderate-Severe AMS" then risk_score + 2
    else if history = "Mild AMS" then risk_score + 1
    else risk_score
  -- Sleeping elevation on Day 1 (lines 89-97)
  let risk_score :=
    if sleeping_elevation > 3500 then risk_score + 3
    else if sleeping_elevation ≥ 2800 then risk_score + 2
    else if sleeping_elevation ≥ 2500 then risk_score + 1
    else risk_score
  -- Ascent rate (lines 100-102)
  let risk_score := if ascent_rate > 500 then risk_score + 2 else risk_score
  -- Age factor (lines 105-107)
  let risk_score := if age < 18 ∨ age > 65 then risk_score + 1 else risk_score
  -- Medical conditions (lines 110-115)
  let risk_score :=
    if "Cardiac disease" ∈ medical_conditions then risk_score + 1 else risk_score
  let risk_score :=
    if "Pulmonary disease" ∈ medical_conditions then risk_score + 1 else risk_score
  risk_score

/-- Embedding of the risk-factor string accumulation of `assess_ams_risk`
(src/app.py lines 75-115): the running Python local `risk_factors`. -/
def ams_risk_factors (history : String) (sleeping_elevation : Int)
    (ascent_rate : Rat) (age : Int) (medical_conditions : List String) :
    List String :=
  let risk_factors : List String := []
  let risk_factors :=
    if history = "HAPE or HACE" then
      risk_factors ++ ["Previous HAPE/HACE (High Risk)"]
    else if history = "Moderate-Severe AMS" then
      risk_factors ++ ["Previous Moderate-Severe AMS"]
    else if history = "Mild AMS" then
      risk_factors ++ ["Previous Mild AMS"]
    else risk_factors
  let risk_factors :=
    if sleeping_elevation > 3500 then
      risk_factors ++ [s!"High sleeping elevation: {sleeping_elevation}m"]
    else if sleeping_elevation ≥ 2800 then
      risk_factors ++ [s!"Moderate sleeping elevation: {sleeping_elevation}m"]
    else if sleeping_elevation ≥ 2500 then
      risk_factors ++ [s!"Elevated sleeping elevation: {sleeping_elevation}m"]
    else risk_factors
  let risk_factors :=
    if ascent_rate > 500 then
      risk_factors ++ [s!"Rapid ascent rate: {ascent_rate}m/day"]
    else risk_factors
  let risk_factors :=
    if age < 18 ∨ age > 65 then
      risk_factors ++ [s!"Age factor: {age} years"]
    else risk_factors
  let risk_factors :=
    if "Cardiac disease" ∈ medical_conditions then
      risk_factors ++ ["Cardiac disease"]
    else risk_factors
  let risk_factors :=
    if "Pulmonary disease" ∈ medical_conditions then
      risk_factors ++ ["Pulmonary disease"]
    else risk_factors
  risk_factors

/-- Embedding of `assess_ams_risk(history, sleeping_elevation, ascent_rate,
age, medical_conditions)` (src/app.py lines 72-123), returning the tuple
`(risk category, risk_factors, risk_score)` exactly as lines 118-123 do. -/
def assess_ams_risk (history : String) (sleeping_elevation : Int)
    (ascent_rate : Rat) (age : Int) (medical_conditions : List String) :
    String × List String × Int :=
  let risk_score :=
    ams_risk_score history sleeping_elevation ascent_rate age medical_conditions
  let risk_factors :=
    ams_risk_factors history sleeping_elevation ascent_rate age medical_conditions
  -- Determine risk category (lines 118-123)
  if risk_score ≥ 6 then ("High", risk_factors, risk_score)
  else if risk_score ≥ 3 then ("Moderate", risk_factors, risk_score)
  else ("Low", risk_factors, risk_score)

/-- The category cut points of src/app.py lines 118-123, as a function of the
score alone. -/
def risk_category_of_score (risk_score : Int) : String :=
  if risk_score ≥ 6 then "High"
  else if risk_score ≥ 3 then "Moderate"
  else "Low"

/-- A recommendation record as built by `recommend_prophylaxis` and
`recommend_hape_prophylaxis` (src/app.py lines 125-220): either a medication
dictionary (keys medication/dose/start/duration/strength/notes) or an action
dictionary (keys action/details/strength). -/
inductive RecItem where
  | medication (name dose start duration strength notes : String)
  | action (title details strength : String)
deriving DecidableEq

/-- The name of a medication recommendation, `none` for an action. -/
def RecItem.medName : RecItem → Option String
  | .medication name _ _ _ _ _ => some name
  | .action _ _ _ => none

/-- The name of the first medication recommendation of a list, if any. -/
def first_medication_name (recs : List RecItem) : Option String :=
  recs.findSome? RecItem.medName

/-- Embedding of a Python dictionary subscript `d[key]` on a `bool`-valued
dictionary: `none` when the key is absent (the Python code raises `KeyError`
there). -/
def dict_get (d : List (String × Bool)) (key : String) : Option Bool :=
  match d.find? (fun p => p.1 == key) with
  | some p => some p.2
  | none => none

/-- Embedding of `recommend_prophylaxis(risk_level, has_contraindications)`
(src/app.py lines 125-182).  Each `has_contraindications[...]` subscript is a
monadic `dict_get`; the whole call returns `none` when a subscript it reaches
finds no key. -/
def recommend_prophylaxis (risk_level : String)
    (has_contraindications : List (String × Bool)) : Option (List RecItem) := do
  let mut recommendations : List RecItem := []
  if risk_level = "Low" then
    recommendations := recommendations ++
      [.action "Gradual Ascent"
        "No medication needed. Follow gradual ascent guidelines."
        "Strong Recommendation"]
  else if risk_level = "Moderate" then
    let contra ← dict_get has_contraindications "acetazolamide"
    if !contra then
      recommendations := recommendations ++
        [.medication "Acetazolamide" "125 mg every 12 hours"
          "Night before ascent" "2-4 days at target altitude"
          "Strong Recommendation"
          "First-line prophylaxis. Start 125mg at bedtime before ascent."]
    else
      recommendations := recommendations ++
        [.medication "Dexamethasone" "2 mg every 6 hours or 4 mg every 12 hours"
          "Day before ascent" "2-4 days at target altitude"
          "Strong Recommendation (Alternative)"
          "Use if acetazolamide contraindicated"]
  else if risk_level = "High" then
    let contra ← dict_get has_contraindications "acetazolamide"
    if !contra then
      recommendations := recommendations ++
        [.medication "Acetazolamide" "250 mg every 12 hours"
          "Night before ascent" "2-4 days at target altitude"
          "Strong Recommendation" "Higher dose for high-risk profiles"]
    recommendations := recommendations ++
      [.action "Consider Staged Ascent"
        "Spend 6-7 days at 2200-3000m before proceeding higher"
        "Strong Recommendation"]
  -- Add alternative option (lines 172-180)
  if risk_level ∈ ["Moderate", "High"] then
    recommendations := recommendations ++
      [.medication "Ibuprofen (Alternative)" "600 mg every 8 hours"
        "Before ascent" "Short-term use only" "Weak Recommendation"
        "For those who cannot take acetazolamide or dexamethasone"]
  return recommendations

/-- Embedding of `recommend_hape_prophylaxis(history_hape, contraindications)`
(src/app.py lines 184-220); the source subscripts
`contraindications["nifedipine"]` twice (lines 191 and 201). -/
def recommend_hape_prophylaxis (history_hape : Bool)
    (contraindications : List (String × Bool)) : Option (List RecItem) := do
  if !history_hape then
    return []
  let mut recommendations : List RecItem := []
  let contra1 ← dict_get contraindications "nifedipine"
  if !contra1 then
    recommendations := recommendations ++
      [.medication "Nifedipine (Extended Release)" "30 mg every 12 hours"
        "Day before ascent" "4-7 days at target altitude"
        "Strong Recommendation"
        "First-line for HAPE prevention in susceptible individuals"]
  let contra2 ← dict_get contraindications "nifedipine"
  if contra2 then
    recommendations := recommendations ++
      [.medication "Tadalafil" "10 mg every 12 hours"
        "Day before ascent" "4-7 days at target altitude"
        "Strong Recommendation (Alternative)"
        "Use if nifedipine contraindicated"]
    recommendations := recommendations ++
      [.medication "Dexamethasone" "8 mg every 12 hours"
        "Day before ascent" "4-7 days at target altitude"
        "Strong Recommendation (Alternative)"
        "Use if nifedipine and tadalafil contraindicated"]
  return recommendations

/-- One step of an ascent plan: a dictionary with keys day/action/altitude/notes
(src/app.py lines 230-273). -/
structure AscentStep where
  day : Int
  action : String
  altitude : Int
  notes : String
deriving DecidableEq

/-- The `while current_altitude < target_altitude` loop of
`generate_ascent_plan` (src/app.py lines 251-275), embedded with a `fuel`
argument that bounds the number of iterations; `generate_ascent_plan` passes
`(target - current).toNat` fuel, which suffices because every iteration
raises `current_altitude` by at least 1. -/
def ascent_loop (fuel : Nat) (current_altitude target_altitude : Int)
    (day : Int) (rest_day_counter : Nat) : List AscentStep :=
  match fuel with
  | 0 => []
  | fuel + 1 =>
    if current_altitude < target_altitude then
      let next_altitude := min (current_altitude + 500) target_altitude
      let step : AscentStep :=
        ⟨day, "Ascent", next_altitude,
          s!"Gain {next_altitude - current_altitude}m (sleep at {next_altitude}m)"⟩
      -- Add rest day every 3-4 days (lines 267-275)
      if rest_day_counter + 1 ≥ 3 ∧ next_altitude < target_altitude then
        step ::
          ⟨day + 1, "Rest Day", next_altitude,
            "Acclimatization day - no gain in sleeping elevation"⟩ ::
          ascent_loop fuel next_altitude target_altitude (day + 2) 0
      else
        step :: ascent_loop fuel next_altitude target_altitude (day + 1)
          (rest_day_counter + 1)
    else []

/-- Embedding of `generate_ascent_plan(starting_altitude, target_altitude)`
(src/app.py lines 222-277).  The two setup `if` blocks update the locals
`plan`, `current_altitude` and `day`; each local gets one `if` with the very
condition of the source block. -/
def generate_ascent_plan (starting_altitude target_altitude : Int) :
    List AscentStep :=
  -- If starting below 3000m, suggest intermediate stop (lines 229-237)
  let plan : List AscentStep :=
    if starting_altitude < 1500 ∧ target_altitude > 2800 then
      [⟨0, "Intermediate Stop", 1600,
        "Spend 1 night at intermediate altitude (e.g., Denver)"⟩]
    else []
  let current_altitude : Int :=
    if starting_altitude < 1500 ∧ target_altitude > 2800 then 1600
    else starting_altitude
  let day : Int :=
    if starting_altitude < 1500 ∧ target_altitude > 2800 then 1 else 0
  -- Initial ascent to starting point (lines 240-248)
  let plan :=
    if current_altitude < 3000 then
      plan ++ [⟨day, "Ascent to Base", min 3000 target_altitude,
        "Initial ascent to starting elevation"⟩]
    else plan
  let day := if current_altitude < 3000 then day + 1 else day
  let current_altitude :=
    if current_altitude < 3000 then min 3000 target_altitude
    else current_altitude
  -- Gradual ascent above 3000m (lines 251-275)
  plan ++ ascent_loop (target_altitude - current_altitude).toNat
    current_altitude target_altitude day 0

/-- Embedding of the Lake Louise score approximation displayed by the symptom
checker (src/app.py lines 717-721): the count of reported symptoms among the
four AMS symptoms plus a functional-status bonus. -/
def lake_louise_score_estimate (symptoms : List String)
    (functional_status : String) : Nat :=
  let score := (symptoms.filter
    (fun s => s ∈ ["Headache", "Nausea/Vomiting", "Fatigue", "Dizziness"])).length
  let score :=
    if functional_status = "Severely limited" ∨
        functional_status = "Unable to function" then score + 2
    else if functional_status = "Moderately limited" then score + 1
    else score
  score

/-! ## Helper lemmas -/

/-- The returned category of `assess_ams_risk` is `risk_category_of_score` of
the returned score. -/
lemma assess_ams_risk_fst (history : String) (sleeping_elevation : Int)
    (ascent_rate : Rat) (age : Int) (medical_conditions : List String) :
    (assess_ams_risk history sleeping_elevation ascent_rate age
        medical_conditions).1
      = risk_category_of_score
          (assess_ams_risk history sleeping_elevation ascent_rate age
            medical_conditions).2.2 := by
  simp only [assess_ams_risk, risk_category_of_score]
  split_ifs <;> rfl

/-- The score component of the returned triple of `assess_ams_risk`. -/
lemma assess_ams_risk_snd_snd (history : String) (sleeping_elevation : Int)
    (ascent_rate : Rat) (age : Int) (medical_conditions : List String) :
    (assess_ams_risk history sleeping_elevation ascent_rate age
        medical_conditions).2.2
      = ams_risk_score history sleeping_elevation ascent_rate age
          medical_conditions := by
  simp only [assess_ams_risk]
  split_ifs <;> rfl

/-- Of the medical-conditions strings, only `"Cardiac disease"` and
`"Pulmonary disease"` contribute to the risk score, `+1` each. -/
lemma ams_risk_score_conditions (history : String) (sleeping_elevation : Int)
    (ascent_rate : Rat) (age : Int) (medical_conditions : List String) :
    ams_risk_score history sleeping_elevation ascent_rate age medical_conditions
      = ams_risk_score history sleeping_elevation ascent_rate age []
        + ((if "Cardiac disease" ∈ medical_conditions then 1 else 0)
          + (if "Pulmonary disease" ∈ medical_conditions then 1 else 0)) := by
  by_cases hc : "Cardiac disease" ∈ medical_conditions <;>
    by_cases hp : "Pulmonary disease" ∈ medical_conditions <;>
      simp only [ams_risk_score, hc, hp, List.not_mem_nil, if_true, if_false] <;>
      omega

/-- Membership characterization for the `"Mild AMS"` label. -/
lemma mild_ams_mem_iff (symptoms : List String)
    (altitude time_since_ascent : Int) :
    "Mild AMS" ∈ (diagnose_symptoms symptoms altitude time_since_ascent).1
      ↔ "Headache" ∈ symptoms
        ∧ 1 ≤ (symptoms.filter
            (fun s => s ∈ ["Nausea/Vomiting", "Fatigue", "Dizziness"])).length
        ∧ ¬(6 ≤ symptoms.length ∨ "Severe headache" ∈ symptoms) := by
  simp only [diagnose_symptoms]
  split_ifs <;> simp_all

/-- Membership characterization for the `"Moderate-Severe AMS"` label. -/
lemma moderate_severe_ams_mem_iff (symptoms : List String)
    (altitude time_since_ascent : Int) :
    "Moderate-Severe AMS"
        ∈ (diagnose_symptoms symptoms altitude time_since_ascent).1
      ↔ "Headache" ∈ symptoms
        ∧ 1 ≤ (symptoms.filter
            (fun s => s ∈ ["Nausea/Vomiting", "Fatigue", "Dizziness"])).length
        ∧ (6 ≤ symptoms.length ∨ "Severe headache" ∈ symptoms) := by
  simp only [diagnose_symptoms]
  split_ifs <;> simp_all

/-! ## Claim theorems -/

/-- C3 (confirmed): for every input to the risk scorer, the returned risk
category is determined by the returned risk score through the fixed cut
points: score ≥ 6 yields High, 3 ≤ score < 6 yields Moderate, and score < 3
yields Low. -/
theorem C3_category_from_score (history : String) (sleeping_elevation : Int)
    (ascent_rate : Rat) (age : Int) (medical_conditions : List String) :
    (assess_ams_risk history sleeping_elevation ascent_rate age
        medical_conditions).1
      = risk_category_of_score
          (assess_ams_risk history sleeping_elevation ascent_rate age
            medical_conditions).2.2 :=
  assess_ams_risk_fst history sleeping_elevation ascent_rate age
    medical_conditions

/-- C9 (confirmed): the diagnoser returns the same diagnosis list and the same
severity for all values of its altitude and time-since-ascent arguments. -/
theorem C9_diagnose_ignores_context (symptoms : List String)
    (altitude₁ time₁ altitude₂ time₂ : Int) :
    diagnose_symptoms symptoms altitude₁ time₁
      = diagnose_symptoms symptoms altitude₂ time₂ := rfl

/-- C2 counterexample: a pregnancy entry in the medical-condition list adds
nothing to the risk score, and a cardiac-disease entry (score 1) leaves the
category at `"Low"` — no one-step escalation above the score-only category
takes place. -/
theorem C2_comorbidity_cex :
    (assess_ams_risk "None or Mild AMS" 0 0 30 ["Pregnancy"]).2.2 = 0 ∧
    (assess_ams_risk "None or Mild AMS" 0 0 30 ["Cardiac disease"]).2.2 = 1 ∧
    (assess_ams_risk "None or Mild AMS" 0 0 30 ["Cardiac disease"]).1
      = "Low" := by decide

/-- C2 (corrected): only cardiac disease and pulmonary disease among the
comorbidities add `+1` each to the risk score (pregnancy, recent respiratory
infection and sickle-cell disease are ignored), and there is no category
escalation: the category is exactly the score-threshold category. -/
theorem C2_comorbidity_amended (history : String) (sleeping_elevation : Int)
    (ascent_rate : Rat) (age : Int) (medical_conditions : List String) :
    (assess_ams_risk history sleeping_elevation ascent_rate age
        medical_conditions).2.2
      = (assess_ams_risk history sleeping_elevation ascent_rate age []).2.2
        + ((if "Cardiac disease" ∈ medical_conditions then 1 else 0)
          + (if "Pulmonary disease" ∈ medical_conditions then 1 else 0)) ∧
    (assess_ams_risk history sleeping_elevation ascent_rate age
        medical_conditions).1
      = risk_category_of_score
          (assess_ams_risk history sleeping_elevation ascent_rate age
            medical_conditions).2.2 := by
  refine ⟨?_, assess_ams_risk_fst _ _ _ _ _⟩
  rw [assess_ams_risk_snd_snd, assess_ams_risk_snd_snd]
  exact ams_risk_score_conditions history sleeping_elevation ascent_rate age
    medical_conditions

/-- C6 counterexample: on the symptom set {Severe headache, Nausea/Vomiting}
(severe headache, moderate nausea) the diagnoser reports no diagnosis at all —
in particular not Moderate-Severe AMS — because the plain `"Headache"` string
is absent. -/
theorem C6_lake_louise_cex :
    diagnose_symptoms ["Severe headache", "Nausea/Vomiting"] 3000 12
      = ([], "None") := by decide

/-- C6 (corrected): severities are not weighted 0-3.  With the plain Headache
symptom also selected, {Headache, Severe headache, Nausea/Vomiting} is
diagnosed Moderate-Severe AMS (through the severe-headache override, not
through a score ≥ 6), while the displayed Lake Louise estimate is the
unweighted count of core symptoms present — 2, not ≥ 5. -/
theorem C6_lake_louise_amended :
    diagnose_symptoms ["Headache", "Severe headache", "Nausea/Vomiting"] 3000 12
      = (["Moderate-Severe AMS"], "Moderate-Severe") ∧
    lake_louise_score_estimate
      ["Headache", "Severe headache", "Nausea/Vomiting"] "Normal activities"
      = 2 := by decide

/-- C1 counterexample: dyspnea at rest alone does not trigger HAPE — the
diagnoser returns no diagnosis and severity `"None"` for the symptom set
{Dyspnea at rest}. -/
theorem C1_hape_trigger_cex :
    "HIGH ALTITUDE PULMONARY EDEMA (HAPE) - EMERGENCY"
        ∉ (diagnose_symptoms ["Dyspnea at rest"] 3000 12).1 ∧
    (diagnose_symptoms ["Dyspnea at rest"] 3000 12).2 = "None" := by decide

/-- C1 (corrected): HAPE is added, with severity forced to
`"Severe - Emergency"`, exactly when dyspnea at rest or severe dyspnea on
exertion is present together with at least one of cough, chest tightness or
fatigue; cyanosis is not a recognized symptom and dyspnea at rest alone does
not suffice. -/
theorem C1_hape_trigger_amended (symptoms : List String)
    (altitude time_since_ascent : Int) :
    ("HIGH ALTITUDE PULMONARY EDEMA (HAPE) - EMERGENCY"
        ∈ (diagnose_symptoms symptoms altitude time_since_ascent).1
      ↔ ("Dyspnea at rest" ∈ symptoms ∨ "Severe dyspnea on exertion" ∈ symptoms)
        ∧ 1 ≤ (symptoms.filter
            (fun s => s ∈ ["Cough", "Chest tightness", "Fatigue"])).length) ∧
    ("HIGH ALTITUDE PULMONARY EDEMA (HAPE) - EMERGENCY"
        ∈ (diagnose_symptoms symptoms altitude time_since_ascent).1
      → (diagnose_symptoms symptoms altitude time_since_ascent).2
          = "Severe - Emergency") := by
  simp only [diagnose_symptoms]
  split_ifs <;> simp_all

/-- C1 witness: on {Dyspnea at rest, Cough} the amended trigger fires and the
severity is forced to `"Severe - Emergency"`. -/
theorem C1_hape_trigger_witness :
    "HIGH ALTITUDE PULMONARY EDEMA (HAPE) - EMERGENCY"
        ∈ (diagnose_symptoms ["Dyspnea at rest", "Cough"] 4000 24).1 ∧
    (diagnose_symptoms ["Dyspnea at rest", "Cough"] 4000 24).2
      = "Severe - Emergency" := by
  have h := C1_hape_trigger_amended ["Dyspnea at rest", "Cough"] 4000 24
  have hmem := h.1.mpr ⟨Or.inl (by decide), by decide⟩
  exact ⟨hmem, h.2 hmem⟩

/-- C10 (confirmed): without the plain `"Headache"` symptom no AMS label is
returned, even if nausea/vomiting, fatigue and dizziness are all present; and
headache with none of those three companions also yields no AMS label. -/
theorem C10_ams_requires_headache (symptoms : List String)
    (altitude time_since_ascent : Int)
    (h : "Headache" ∉ symptoms ∨
      (symptoms.filter
        (fun s => s ∈ ["Nausea/Vomiting", "Fatigue", "Dizziness"])).length = 0) :
    "Mild AMS" ∉ (diagnose_symptoms symptoms altitude time_since_ascent).1 ∧
    "Moderate-Severe AMS"
      ∉ (diagnose_symptoms symptoms altitude time_since_ascent).1 := by
  constructor
  · rw [mild_ams_mem_iff]
    rintro ⟨hh, hf, -⟩
    rcases h with h | h
    · exact h hh
    · omega
  · rw [moderate_severe_ams_mem_iff]
    rintro ⟨hh, hf, -⟩
    rcases h with h | h
    · exact h hh
    · omega

/-- C10 witness: all three companion symptoms without headache produce no AMS
label. -/
theorem C10_ams_requires_headache_witness :
    ("Headache" ∉ (["Nausea/Vomiting", "Fatigue", "Dizziness"] : List String) ∨
      ((["Nausea/Vomiting", "Fatigue", "Dizziness"] : List String).filter
        (fun s => s ∈ ["Nausea/Vomiting", "Fatigue", "Dizziness"])).length = 0) ∧
    "Mild AMS"
      ∉ (diagnose_symptoms ["Nausea/Vomiting", "Fatigue", "Dizziness"] 0 0).1 ∧
    "Moderate-Severe AMS"
      ∉ (diagnose_symptoms ["Nausea/Vomiting", "Fatigue", "Dizziness"] 0 0).1 :=
  ⟨Or.inl (by decide),
    C10_ams_requires_headache ["Nausea/Vomiting", "Fatigue", "Dizziness"] 0 0
      (Or.inl (by decide))⟩

/-- C7 helper, part 1: in every suffix produced by `ascent_loop`, consecutive
day numbers go up by exactly 1, and the first step (if any) carries the `day`
argument. -/
lemma ascent_loop_day_chain (fuel : Nat) :
    ∀ (c t d : Int) (r : Nat),
      List.Chain' (fun a b => b.day = a.day + 1) (ascent_loop fuel c t d r) ∧
      ∀ x ∈ (ascent_loop fuel c t d r).head?, x.day = d := by
  induction fuel with
  | zero => intro c t d r; simp [ascent_loop]
  | succ fuel ih =>
    intro c t d r
    simp only [ascent_loop]
    by_cases h1 : c < t
    · simp only [h1, if_true]
      by_cases h2 : r + 1 ≥ 3 ∧ min (c + 500) t < t
      · rw [if_pos h2]
        obtain ⟨ihc, ihh⟩ := ih (min (c + 500) t) t (d + 2) 0
        refine ⟨?_, by simp⟩
        rw [List.chain'_cons', List.chain'_cons']
        refine ⟨by simp, ?_, ihc⟩
        intro y hy
        have := ihh y hy
        simp only [this]
        ring
      · rw [if_neg h2]
        obtain ⟨ihc, ihh⟩ := ih (min (c + 500) t) t (d + 1) (r + 1)
        refine ⟨?_, by simp⟩
        rw [List.chain'_cons']
        exact ⟨fun y hy => ihh y hy, ihc⟩
    · simp [h1]

/-- C7 helper, part 2: in every suffix produced by `ascent_loop`, altitudes
never decrease, and every first step is at or above the current altitude. -/
lemma ascent_loop_alt_chain (fuel : Nat) :
    ∀ (c t d : Int) (r : Nat),
      List.Chain' (fun a b => a.altitude ≤ b.altitude)
        (ascent_loop fuel c t d r) ∧
      ∀ x ∈ (ascent_loop fuel c t d r).head?, c ≤ x.altitude := by
  induction fuel with
  | zero => intro c t d r; simp [ascent_loop]
  | succ fuel ih =>
    intro c t d r
    simp only [ascent_loop]
    by_cases h1 : c < t
    · simp only [h1, if_true]
      have hc : c ≤ min (c + 500) t := le_min (by omega) (le_of_lt h1)
      by_cases h2 : r + 1 ≥ 3 ∧ min (c + 500) t < t
      · rw [if_pos h2]
        obtain ⟨ihc, ihh⟩ := ih (min (c + 500) t) t (d + 2) 0
        refine ⟨?_, by simp; omega⟩
        rw [List.chain'_cons', List.chain'_cons']
        exact ⟨by simp <;> omega, fun y hy => ihh y hy, ihc⟩
      · rw [if_neg h2]
        obtain ⟨ihc, ihh⟩ := ih (min (c + 500) t) t (d + 1) (r + 1)
        refine ⟨?_, by simp; omega⟩
        rw [List.chain'_cons']
        exact ⟨fun y hy => ihh y hy, ihc⟩
    · simp [h1]

/-- C7 helper: both chain invariants for the full generated plan. -/
lemma generate_ascent_plan_chains (starting_altitude target_altitude : Int) :
    List.Chain' (fun a b => b.day = a.day + 1)
      (generate_ascent_plan starting_altitude target_altitude) ∧
    List.Chain' (fun a b => a.altitude ≤ b.altitude)
      (generate_ascent_plan starting_altitude target_altitude) := by
  by_cases h1 : starting_altitude < 1500 ∧ target_altitude > 2800
  · have h2 : (1600 : Int) < 3000 := by norm_num
    simp only [generate_ascent_plan, if_pos h1, if_pos h2]
    obtain ⟨hdc, hdh⟩ :=
      ascent_loop_day_chain ((target_altitude - min 3000 target_altitude).toNat)
        (min 3000 target_altitude) target_altitude (1 + 1) 0
    obtain ⟨hac, hah⟩ :=
      ascent_loop_alt_chain ((target_altitude - min 3000 target_altitude).toNat)
        (min 3000 target_altitude) target_altitude (1 + 1) 0
    constructor
    · rw [List.chain'_append]
      refine ⟨by simp, hdc, ?_⟩
      intro x hx y hy
      simp at hx
      subst hx
      have := hdh y hy
      simp [this]
    · rw [List.chain'_append]
      refine ⟨?_, hac, ?_⟩
      · simp
        omega
      · intro x hx y hy
        simp at hx
        subst hx
        have := hah y hy
        simp
        omega
  · by_cases h2 : starting_altitude < 3000
    · simp only [generate_ascent_plan, if_neg h1, if_pos h2]
      obtain ⟨hdc, hdh⟩ :=
        ascent_loop_day_chain
          ((target_altitude - min 3000 target_altitude).toNat)
          (min 3000 target_altitude) target_altitude (0 + 1) 0
      obtain ⟨hac, hah⟩ :=
        ascent_loop_alt_chain
          ((target_altitude - min 3000 target_altitude).toNat)
          (min 3000 target_altitude) target_altitude (0 + 1) 0
      constructor
      · rw [List.chain'_append]
        refine ⟨by simp, hdc, ?_⟩
        intro x hx y hy
        simp at hx
        subst hx
        have := hdh y hy
        simp [this]
      · rw [List.chain'_append]
        refine ⟨by simp, hac, ?_⟩
        intro x hx y hy
        simp at hx
        subst hx
        have := hah y hy
        simp
        omega
    · simp only [generate_ascent_plan, if_neg h1, if_neg h2]
      exact ⟨by simpa using
          (ascent_loop_day_chain _ starting_altitude target_altitude 0 0).1,
        by simpa using
          (ascent_loop_alt_chain _ starting_altitude target_altitude 0 0).1⟩

/-- C7 (confirmed): in every generated ascent plan, day numbers increase by
exactly 1 from each step to the next and altitudes never decrease from each
step to the next; and the plan for start altitude 0 and target altitude 5000
contains a Rest Day step. -/
theorem C7_plan_invariants :
    (∀ starting_altitude target_altitude : Int,
      List.Chain' (fun a b => b.day = a.day + 1)
        (generate_ascent_plan starting_altitude target_altitude) ∧
      List.Chain' (fun a b => a.altitude ≤ b.altitude)
        (generate_ascent_plan starting_altitude target_altitude)) ∧
    ∃ s ∈ generate_ascent_plan 0 5000, s.action = "Rest Day" :=
  ⟨generate_ascent_plan_chains, by decide⟩

/-- C8 counterexample: for start 2000 ≥ target 1000 the setup steps are not
all skipped — the plan still contains an Ascent-to-Base step. -/
theorem C8_degenerate_plan_cex :
    generate_ascent_plan 2000 1000 ≠ [] ∧
    ∃ s ∈ generate_ascent_plan 2000 1000, s.action = "Ascent to Base" := by
  decide

/-- C8 (corrected): whenever start ≥ target, the intermediate-stop step and
the ascent loop are skipped, but the ascent-to-base step is still emitted when
start < 3000; the plan is empty when start ≥ 3000 and otherwise is the single
Ascent-to-Base step at `min 3000 target`.  In particular `plan(X, X)` is an
empty or single-step sequence containing no Ascent steps. -/
theorem C8_degenerate_plan_amended (starting_altitude target_altitude : Int)
    (h : starting_altitude ≥ target_altitude) :
    generate_ascent_plan starting_altitude target_altitude
      = (if starting_altitude < 3000 then
          [⟨0, "Ascent to Base", min 3000 target_altitude,
            "Initial ascent to starting elevation"⟩]
        else []) ∧
    ∀ s ∈ generate_ascent_plan starting_altitude target_altitude,
      s.action ≠ "Ascent" := by
  have h1 : ¬(starting_altitude < 1500 ∧ target_altitude > 2800) := by omega
  by_cases h2 : starting_altitude < 3000
  · have hmin : min 3000 target_altitude = target_altitude :=
      min_eq_right (by omega)
    have hfuel :
        (target_altitude - min 3000 target_altitude).toNat = 0 := by
      rw [hmin]; omega
    simp only [generate_ascent_plan, if_neg h1, if_pos h2, hfuel, ascent_loop]
    simp [h2]
  · have hfuel : (target_altitude - starting_altitude).toNat = 0 := by omega
    simp only [generate_ascent_plan, if_neg h1, if_neg h2, hfuel, ascent_loop]
    simp [h2]

/-- C8 witness: a degenerate plan at start = target = 3500 is empty. -/
theorem C8_degenerate_plan_witness :
    (3500 : Int) ≥ 3500 ∧ generate_ascent_plan 3500 3500 = [] := by
  have h := C8_degenerate_plan_amended 3500 3500 (by decide)
  exact ⟨by decide, h.1.trans (by decide)⟩

/-- C4 counterexample: with the acetazolamide key absent from the
contraindication map, the Moderate-risk prevention call fails (returns no
recommendation list) instead of treating the missing key as
not-contraindicated. -/
theorem C4_missing_key_cex :
    recommend_prophylaxis "Moderate" [] = none ∧
    recommend_hape_prophylaxis true [] = none := by decide

/-- C4 (corrected): each medication branch consults only its own key
(acetazolamide for AMS prophylaxis, nifedipine for HAPE prophylaxis), but a
missing key is a lookup failure, not a fail-open default: a call whose branch
subscripts an absent key returns no recommendation list, while calls whose
branches consult no key still succeed. -/
theorem C4_missing_key_amended (risk_level : String) (history_hape : Bool)
    (d d' : List (String × Bool)) :
    (dict_get d "acetazolamide" = dict_get d' "acetazolamide" →
      recommend_prophylaxis risk_level d = recommend_prophylaxis risk_level d') ∧
    ((recommend_prophylaxis risk_level d).isSome
      ↔ (risk_level = "Moderate" ∨ risk_level = "High" →
          (dict_get d "acetazolamide").isSome)) ∧
    (dict_get d "nifedipine" = dict_get d' "nifedipine" →
      recommend_hape_prophylaxis history_hape d
        = recommend_hape_prophylaxis history_hape d') ∧
    ((recommend_hape_prophylaxis history_hape d).isSome
      ↔ (history_hape = true → (dict_get d "nifedipine").isSome)) := by
  refine ⟨fun h => by simp only [recommend_prophylaxis, h], ?_,
    fun h => by simp only [recommend_hape_prophylaxis, h], ?_⟩
  · by_cases h1 : risk_level = "Low" <;>
      by_cases h2 : risk_level = "Moderate" <;>
        by_cases h3 : risk_level = "High" <;>
          rcases ha : dict_get d "acetazolamide" with _ | b <;>
            (try cases b) <;> simp_all [recommend_prophylaxis]
  · cases history_hape <;>
      rcases ha : dict_get d "nifedipine" with _ | b <;>
        (try cases b) <;> simp_all [recommend_hape_prophylaxis]

/-- C4 witness: at risk level Moderate, a map containing the acetazolamide key
makes the call succeed, and an extra unrelated key does not change the
result. -/
theorem C4_missing_key_witness :
    recommend_prophylaxis "Moderate" [("acetazolamide", false)]
      = recommend_prophylaxis "Moderate"
          [("acetazolamide", false), ("ibuprofen", true)] ∧
    ((recommend_prophylaxis "Moderate" [("acetazolamide", false)]).isSome
      ↔ ("Moderate" = "Moderate" ∨ "Moderate" = "High" →
          (dict_get [("acetazolamide", false)] "acetazolamide").isSome)) := by
  have h := C4_missing_key_amended "Moderate" true [("acetazolamide", false)]
    [("acetazolamide", false), ("ibuprofen", true)]
  exact ⟨h.1 (by decide), h.2.1⟩

/-- C5 counterexample: for risk category High with acetazolamide
contraindicated, the first medication recommendation returned is Ibuprofen
(Alternative), not Dexamethasone — no substitution happens in the High
branch. -/
theorem C5_dexamethasone_substitute_cex :
    (recommend_prophylaxis "High" [("acetazolamide", true)]).bind
        first_medication_name
      = some "Ibuprofen (Alternative)" ∧
    some "Ibuprofen (Alternative)" ≠ some "Dexamethasone" := by decide

/-- C5 (corrected): when acetazolamide is marked contraindicated, only the
Moderate branch substitutes Dexamethasone as the first medication
recommendation; the High branch emits no substitute, so its first medication
recommendation is Ibuprofen (Alternative). -/
theorem C5_dexamethasone_substitute_amended (d : List (String × Bool))
    (h : dict_get d "acetazolamide" = some true) :
    (recommend_prophylaxis "Moderate" d).bind first_medication_name
      = some "Dexamethasone" ∧
    (recommend_prophylaxis "High" d).bind first_medication_name
      = some "Ibuprofen (Alternative)" := by
  constructor <;>
    simp [recommend_prophylaxis, h, first_medication_name, RecItem.medName]

/-- C5 witness: instantiation at the map marking acetazolamide
contraindicated. -/
theorem C5_dexamethasone_substitute_witness :
    dict_get [("acetazolamide", true)] "acetazolamide" = some true ∧
    (recommend_prophylaxis "Moderate" [("acetazolamide", true)]).bind
        first_medication_name
      = some "Dexamethasone" ∧
    (recommend_prophylaxis "High" [("acetazolamide", true)]).bind
        first_medication_name
      = some "Ibuprofen (Alternative)" := by
  have h := C5_dexamethasone_substitute_amended [("acetazolamide", true)]
    (by decide)
  exact ⟨by decide, h.1, h.2⟩

end Altitude
